import Mathlib

/-!
Shallow embedding of the `otelx` Go package (repository `edr3x/otelx`):
a telemetry-initialization helper wiring OpenTelemetry tracing and metrics
for Go services.  The package-level mutable globals (`metrics`, `tracer`,
`grpcConnection` in `otelx.go`, plus the `otel.Set*` process-wide registries)
are modelled as an explicit state record threaded through each operation.
External collaborators (gRPC dialing, exporter construction, resource
construction, instrument construction) are modelled as outcome parameters,
since their success or failure is decided outside this repository.
-/

namespace Otelx

/-- The process environment, restricted to the variables the package reads.
`none` models an unset variable; `some s` a variable set to `s` (possibly
empty).  Mirrors `os.Getenv` / `os.LookupEnv` usage in the source. -/
structure Env where
  OTEL_ENABLE : Option String
  OTEL_COLLECTOR_ENDPOINT : Option String
  SERVICE_VERSION : Option String
  ENV : Option String
deriving DecidableEq, Repr

/-- Embeds `os.Getenv`: returns the value, or the empty string when unset. -/
def osGetenv (v : Option String) : String := v.getD ""

/-- Embeds `strings.ToLower` as used on the `OTEL_ENABLE` value in `initCollector`
(`otelx.go` line 64).  Modelled as per-character ASCII lowering over the
string's character list, which agrees with Go's Unicode lowering on all
ASCII input. -/
def goToLower (s : String) : String := ⟨s.data.map Char.toLower⟩

/-- A live gRPC client connection handle (`*grpc.ClientConn`), abstracted to
an identifier so that distinct connections are distinguishable. -/
abbrev Conn := Nat

/-- The counter instrument created by `NewMeterProvider`
(`meter.Int64Counter` in `otelx.go` lines 240-243). -/
structure Int64Counter where
  name : String
  description : String
deriving DecidableEq, Repr

/-- The histogram instrument created by `NewMeterProvider`
(`meter.Float64Histogram` in `otelx.go` lines 249-257).  Bucket boundaries
are exact rationals standing for the Go float literals. -/
structure Float64Histogram where
  name : String
  description : String
  boundaries : List ℚ
deriving DecidableEq, Repr

/-- Embeds `otelx.Metrics` (`otelx.go` lines 43-46): the shared instrument pair.
In Go both fields are interfaces whose zero value is `nil`; `none` models a
`nil` interface field. -/
structure Metrics where
  RequestCounter : Option Int64Counter
  RequestHistogram : Option Float64Histogram
deriving DecidableEq, Repr

/-- The resource built by `newResource` (`otelx.go` lines 98-108):
service name, `$SERVICE_VERSION`, `$ENV`, plus host attributes added by
`resource.WithHost()`. -/
structure ResourceData where
  serviceName : String
  serviceVersion : String
  deploymentEnvironment : String
  withHost : Bool
deriving DecidableEq, Repr

/-- The value of the package-level `tracer` global: either the no-op tracer
`noop.NewTracerProvider().Tracer(name)` or an SDK tracer
`tp.Tracer(service)` bound to a provider exporting over `conn`. -/
inductive Tracer
  | noop (name : String)
  | sdk (service : String) (conn : Conn) (res : ResourceData)
deriving DecidableEq, Repr

/-- The OTLP trace exporter built over the collector connection
(`otlptracegrpc.New(ctx, otlptracegrpc.WithGRPCConn(conn))`). -/
structure TraceExporter where
  conn : Conn
deriving DecidableEq, Repr

/-- The sampler installed by `NewTraceProvider`: always
`sdktrace.AlwaysSample()`. -/
inductive Sampler
  | alwaysSample
deriving DecidableEq, Repr

/-- The SDK tracer provider built by `NewTraceProvider` (`otelx.go` lines
162-166): always-sample sampler, resource, batch span processor over the
exporter. -/
structure TracerProvider where
  sampler : Sampler
  res : ResourceData
  exporter : TraceExporter
deriving DecidableEq, Repr

/-- The SDK meter provider built by `NewMeterProvider` (`otelx.go` lines
231-234): periodic reader over the metric exporter, plus the resource. -/
structure MeterProvider where
  res : ResourceData
  exporterConn : Conn
deriving DecidableEq, Repr

/-- The composite text-map propagator registered by `NewTraceProvider`
(`otelx.go` lines 173-178): Baggage + TraceContext. -/
inductive Propagator
  | compositeBaggageTraceContext
deriving DecidableEq, Repr

/-- Process-wide mutable telemetry state: the three package globals of
`otelx.go` lines 27-31 (`metrics`, `tracer`, `grpcConnection`) together with
the process-wide registries set via `otel.SetTracerProvider`,
`otel.SetMeterProvider` and `otel.SetTextMapPropagator`. -/
structure OtelState where
  metrics : Metrics
  tracer : Option Tracer
  grpcConnection : Option Conn
  globalTracerProvider : Option TracerProvider
  globalMeterProvider : Option MeterProvider
  globalPropagator : Option Propagator
deriving DecidableEq, Repr

/-- The state at process start: all globals at their zero values. -/
def initialState : OtelState :=
  { metrics := { RequestCounter := none, RequestHistogram := none }
    tracer := none
    grpcConnection := none
    globalTracerProvider := none
    globalMeterProvider := none
    globalPropagator := none }

/-- The errors `initCollector` returns (`otelx.go` lines 58-85): disabled via
`OTEL_ENABLE`, missing endpoint, or a wrapped connection failure. -/
inductive InitErr
  | disabled
  | missingEndpoint
  | connectionFailed (cause : String)
deriving DecidableEq, Repr

/-- Result of `initCollector`: the updated state, the list of endpoint
addresses for which a network connection was attempted (via
`grpc.NewClient`), and the returned connection or error. -/
structure InitResult where
  state : OtelState
  attempts : List String
  result : Except InitErr Conn
deriving Repr

instance : DecidableEq (Except InitErr Conn) := fun a b =>
  match a, b with
  | .ok x, .ok y =>
      if h : x = y then .isTrue (by rw [h]) else .isFalse (by simp [h])
  | .error x, .error y =>
      if h : x = y then .isTrue (by rw [h]) else .isFalse (by simp [h])
  | .ok _, .error _ => .isFalse (by simp)
  | .error _, .ok _ => .isFalse (by simp)

instance : DecidableEq InitResult := fun a b =>
  match a, b with
  | ⟨s1, a1, r1⟩, ⟨s2, a2, r2⟩ =>
    if h : s1 = s2 ∧ a1 = a2 ∧ r1 = r2 then
      .isTrue (by rw [h.1, h.2.1, h.2.2])
    else
      .isFalse (by rw [InitResult.mk.injEq]; exact h)

/-- Embeds `initCollector` (`otelx.go` lines 58-85).  Returns the memoized
connection if present; otherwise checks `strings.ToLower(OTEL_ENABLE)`
against `"true"`, requires a non-empty `OTEL_COLLECTOR_ENDPOINT`, then
attempts `grpc.NewClient` (the `dial` parameter decides that external
outcome) and memoizes the connection on success. -/
def initCollector (env : Env) (dial : String → Except String Conn)
    (s : OtelState) : InitResult :=
  match s.grpcConnection with
  | some conn => { state := s, attempts := [], result := .ok conn }
  | none =>
    if goToLower (osGetenv env.OTEL_ENABLE) ≠ "true" then
      { state := s, attempts := [], result := .error .disabled }
    else
      let otlpEndpoint := osGetenv env.OTEL_COLLECTOR_ENDPOINT
      if otlpEndpoint = "" then
        { state := s, attempts := [], result := .error .missingEndpoint }
      else
        match dial otlpEndpoint with
        | .error e =>
            { state := s, attempts := [otlpEndpoint],
              result := .error (.connectionFailed e) }
        | .ok conn =>
            { state := { s with grpcConnection := some conn },
              attempts := [otlpEndpoint], result := .ok conn }

/-- Embeds `newResource` (`otelx.go` lines 98-108) on the success path: the
attribute values it assembles from the argument and the environment.
Failure of `resource.New` is decided externally and is modelled by the
outcome parameters of the provider constructors. -/
def newResourceData (env : Env) (service : String) : ResourceData :=
  { serviceName := service
    serviceVersion := osGetenv env.SERVICE_VERSION
    deploymentEnvironment := osGetenv env.ENV
    withHost := true }

/-- The cleanup function a provider constructor returns: either the no-op
`func() {}` or a real shutdown of the provider it closes over. -/
inductive Cleanup
  | noopClean
  | shutdownTrace (tp : TracerProvider)
  | shutdownMeter (mp : MeterProvider)
deriving DecidableEq, Repr

/-- Result of `NewTraceProvider`: updated state, network attempts made by
the embedded `initCollector` call, the returned provider handle (`nil` is
`none`), and the returned cleanup function. -/
structure TraceSetupResult where
  state : OtelState
  attempts : List String
  provider : Option TracerProvider
  cleanup : Cleanup
deriving DecidableEq, Repr

/-- Embeds `NewTraceProvider` (`otelx.go` lines 136-190).  `dial` decides the
external `grpc.NewClient` outcome; `expOutcome` the `otlptracegrpc.New`
outcome; `resOutcome` the `resource.New` outcome.  On channel failure the
package tracer is set to the no-op tracer and `(nil, clean)` is returned;
on exporter or resource failure `(nil, clean)` is returned with no other
state change; on success the provider is built, registered globally with
the composite propagator, and the package tracer is bound to `service`. -/
def NewTraceProvider (env : Env) (dial : String → Except String Conn)
    (expOutcome : Except String Unit) (resOutcome : Except String Unit)
    (service : String) (s : OtelState) : TraceSetupResult :=
  let r := initCollector env dial s
  match r.result with
  | .error _ =>
      { state := { r.state with tracer := some (.noop "noop") }
        attempts := r.attempts, provider := none, cleanup := .noopClean }
  | .ok conn =>
    match expOutcome with
    | .error _ =>
        { state := r.state, attempts := r.attempts
          provider := none, cleanup := .noopClean }
    | .ok _ =>
      match resOutcome with
      | .error _ =>
          { state := r.state, attempts := r.attempts
            provider := none, cleanup := .noopClean }
      | .ok _ =>
          let res := newResourceData env service
          let tp : TracerProvider :=
            { sampler := .alwaysSample, res := res, exporter := { conn := conn } }
          { state :=
              { r.state with
                globalTracerProvider := some tp
                globalPropagator := some .compositeBaggageTraceContext
                tracer := some (.sdk service conn res) }
            attempts := r.attempts, provider := some tp
            cleanup := .shutdownTrace tp }

/-- Result of `NewMeterProvider`: updated state, network attempts made by
the embedded `initCollector` call, and the returned cleanup function. -/
structure MeterSetupResult where
  state : OtelState
  attempts : List String
  cleanup : Cleanup
deriving DecidableEq, Repr

/-- Embeds `NewMeterProvider` (`otelx.go` lines 210-275).  `dial` decides the
`grpc.NewClient` outcome; `expOutcome` the `otlpmetricgrpc.New` outcome;
`resOutcome` the `resource.New` outcome; `counterOutcome` and `histOutcome`
the `meter.Int64Counter` / `meter.Float64Histogram` outcomes.  Every failure
returns the empty cleanup with no further state change (in particular it
never touches the package tracer); on success the meter provider is
registered globally and the package `metrics` pair is populated with the two
named instruments. -/
def NewMeterProvider (env : Env) (dial : String → Except String Conn)
    (expOutcome : Except String Unit) (resOutcome : Except String Unit)
    (counterOutcome : Except String Unit) (histOutcome : Except String Unit)
    (service : String) (s : OtelState) : MeterSetupResult :=
  let r := initCollector env dial s
  match r.result with
  | .error _ =>
      { state := r.state, attempts := r.attempts, cleanup := .noopClean }
  | .ok conn =>
    match expOutcome with
    | .error _ =>
        { state := r.state, attempts := r.attempts, cleanup := .noopClean }
    | .ok _ =>
      match resOutcome with
      | .error _ =>
          { state := r.state, attempts := r.attempts, cleanup := .noopClean }
      | .ok _ =>
        let res := newResourceData env service
        let mp : MeterProvider := { res := res, exporterConn := conn }
        match counterOutcome with
        | .error _ =>
            { state := { r.state with globalMeterProvider := some mp }
              attempts := r.attempts, cleanup := .noopClean }
        | .ok _ =>
          match histOutcome with
          | .error _ =>
              { state := { r.state with globalMeterProvider := some mp }
                attempts := r.attempts, cleanup := .noopClean }
          | .ok _ =>
              let counter : Int64Counter :=
                { name := "http_requests_total"
                  description := "Total number of HTTP requests" }
              let histogram : Float64Histogram :=
                { name := "http_request_duration_seconds"
                  description := "HTTP request duration in seconds"
                  boundaries := [0.1, 0.2, 0.3, 0.4, 0.5,
                                 0.6, 0.7, 0.8, 0.9, 1.0,
                                 2.0, 5.0] }
              { state :=
                  { r.state with
                    globalMeterProvider := some mp
                    metrics :=
                      { RequestCounter := some counter
                        RequestHistogram := some histogram } }
                attempts := r.attempts, cleanup := .shutdownMeter mp }

/-- A span handle as returned by `tracer.Start`: the no-op span performs
nothing; an SDK span is bound to the tracer that created it and carries the
generated name. -/
inductive Span
  | noop
  | sdk (t : Tracer) (name : String)
deriving DecidableEq, Repr

/-- Whether ending this span hands it to an exporter (network I/O via the
batch span processor).  A no-op span's `End` does nothing. -/
def Span.endEmitsExport : Span → Bool
  | .noop => false
  | .sdk _ _ => true

/-- A trace context: the stack of spans recorded in the `context.Context`.
`tracer.Start` derives a new context by pushing the started span. -/
def Context := List Span
deriving instance DecidableEq, Repr for Context

/-- Embeds `StartSpan` (`otelx.go` lines 293-305).  When the package tracer is
unset or no collector connection was ever established, starts a no-op span
via a fresh no-op tracer; otherwise starts a span named from the caller's
function name and line under the active tracer. -/
def StartSpan (s : OtelState) (ctx : Context) (callerFn : String)
    (callerLine : Nat) : Context × Span :=
  match s.tracer, s.grpcConnection with
  | some t, some _ =>
      let sp := Span.sdk t (callerFn ++ ":" ++ toString callerLine)
      (sp :: ctx, sp)
  | _, _ =>
      (Span.noop :: ctx, Span.noop)

/-- Embeds `responseWriter` (`middleware.go` lines 20-23): wraps an
`http.ResponseWriter` and tracks a status code.  The underlying writer's
single-commit behaviour is modelled by `committed`: the first status
forwarded to `http.ResponseWriter.WriteHeader` is the one actually sent on
the wire, later forwards are ignored by `net/http`. -/
structure responseWriter where
  statusCode : Int
  committed : Option Int
deriving DecidableEq, Repr

/-- Embeds `NewResponseWriter` (`middleware.go` lines 30-32): status code defaults
to `http.StatusOK` (200); nothing committed yet. -/
def NewResponseWriter : responseWriter :=
  { statusCode := 200, committed := none }

/-- Embeds `responseWriter.WriteHeader` (`middleware.go` lines 40-43): sets
`rw.statusCode = code` unconditionally, then forwards to the underlying
writer (which commits only the first forwarded status). -/
def responseWriter.WriteHeader (rw : responseWriter) (code : Int) :
    responseWriter :=
  { statusCode := code
    committed := match rw.committed with
      | some c => some c
      | none => some code }

/-- Embeds `responseWriter.Status` (`middleware.go` lines 49-51). -/
def responseWriter.Status (rw : responseWriter) : Int := rw.statusCode

/-- An attribute attached to a metric recording (`attribute.String` /
`attribute.Int`). -/
inductive Attr
  | str (key val : String)
  | int (key : String) (val : Int)
deriving DecidableEq, Repr

/-- A recording call issued against an instrument of the shared pair.  The
instrument field carries the value of the global at the moment of the call:
`none` means the call is made on a `nil` (never-initialized) instrument. -/
inductive RecordEvent
  | counterAdd (inst : Option Int64Counter) (value : Int) (attrs : List Attr)
  | histRecord (inst : Option Float64Histogram) (value : ℚ) (attrs : List Attr)
deriving DecidableEq, Repr

/-- An inbound HTTP request, restricted to the fields the middleware reads
(`r.Method` and `r.URL.Path`). -/
structure Request where
  method : String
  path : String
deriving DecidableEq, Repr

/-- One invocation of the handler returned by `MetricsMiddleware`
(`middleware.go` lines 81-111).  The wrapped handler is modelled by the
sequence of status codes it passes to `WriteHeader` (`writes`) and the
wall-clock `duration` in seconds its `ServeHTTP` call takes.  Returns the
recording calls issued, in order, against the package `metrics` globals. -/
def MetricsMiddleware (s : OtelState) (req : Request) (writes : List Int)
    (duration : ℚ) : List RecordEvent :=
  let rw := writes.foldl responseWriter.WriteHeader NewResponseWriter
  [ .counterAdd s.metrics.RequestCounter 1
      [ .str "method" req.method
        , .str "path" req.path
        , .int "status_code" rw.Status ]
    , .histRecord s.metrics.RequestHistogram duration
      [ .str "method" req.method
        , .str "path" req.path
        , .int "status_code" rw.Status ] ]

/-- A Go error value as the gRPC interceptors see it: either a gRPC status
error carrying a code, or any other error. -/
inductive GoError
  | grpcStatus (code : Int) (msg : String)
  | plain (msg : String)
deriving DecidableEq, Repr

/-- Embeds `status.Code(err)` from `google.golang.org/grpc/status` as called in
`http.go` lines 131 and 188: `nil` maps to `codes.OK` (0), a status error
to its own code, any other non-nil error to `codes.Unknown` (2). -/
def statusCode : Option GoError → Int
  | none => 0
  | some (.grpcStatus c _) => c
  | some (.plain _) => 2

/-- Result of one invocation of the interceptor returned by
`UnaryServerMetricsInterceptor`: the response and error passed through from
the handler, and the recording calls issued. -/
structure UnaryCallResult where
  resp : Option String
  err : Option GoError
  events : List RecordEvent
deriving DecidableEq, Repr

/-- One invocation of the interceptor returned by
`UnaryServerMetricsInterceptor` (`http.go` lines 118-150).  The handler's
outcome is `(handlerResp, handlerErr)` and the measured wall-clock duration
in seconds is `duration`.  Records the counter (+1) and the histogram, both
tagged with the full method name and the status code extracted from the
handler error, then returns the handler's outcome unchanged. -/
def UnaryServerMetricsInterceptor (s : OtelState) (fullMethod : String)
    (handlerResp : Option String) (handlerErr : Option GoError)
    (duration : ℚ) : UnaryCallResult :=
  let code := statusCode handlerErr
  { resp := handlerResp
    err := handlerErr
    events :=
      [ .counterAdd s.metrics.RequestCounter 1
          [ .str "method" fullMethod, .int "status_code" code ]
        , .histRecord s.metrics.RequestHistogram duration
          [ .str "method" fullMethod, .int "status_code" code ] ] }

/-- Result of one invocation of the interceptor returned by
`StreamServerMetricsInterceptor`: the error passed through from the stream
handler, and the recording calls issued. -/
structure StreamCallResult where
  err : Option GoError
  events : List RecordEvent
deriving DecidableEq, Repr

/-- One invocation of the interceptor returned by
`StreamServerMetricsInterceptor` (`http.go` lines 176-205).  Same recording
behaviour as the unary interceptor, with the stream handler returning only
an error. -/
def StreamServerMetricsInterceptor (s : OtelState) (fullMethod : String)
    (handlerErr : Option GoError) (duration : ℚ) : StreamCallResult :=
  let code := statusCode handlerErr
  { err := handlerErr
    events :=
      [ .counterAdd s.metrics.RequestCounter 1
          [ .str "method" fullMethod, .int "status_code" code ]
        , .histRecord s.metrics.RequestHistogram duration
          [ .str "method" fullMethod, .int "status_code" code ] ] }

/-- Embeds `IsEnabled` (from the package's helpers file): true exactly when
`os.Getenv("OTEL_ENABLE") == "true"` (case-sensitive) and
`os.LookupEnv("OTEL_COLLECTOR_ENDPOINT")` reports the variable present
(its value may be empty). -/
def IsEnabled (env : Env) : Bool :=
  osGetenv env.OTEL_ENABLE == "true" && env.OTEL_COLLECTOR_ENDPOINT.isSome

/-! Helper lemmas shared by several claim theorems. -/

theorem initCollector_state_tracer (env : Env) (dial : String → Except String Conn)
    (s : OtelState) : (initCollector env dial s).state.tracer = s.tracer := by
  cases hc : s.grpcConnection with
  | some conn => simp [initCollector, hc]
  | none =>
    by_cases he : goToLower (osGetenv env.OTEL_ENABLE) = "true"
    · by_cases hep : osGetenv env.OTEL_COLLECTOR_ENDPOINT = ""
      · simp [initCollector, hc, he, hep]
      · cases hd : dial (osGetenv env.OTEL_COLLECTOR_ENDPOINT) <;>
          simp [initCollector, hc, he, hep, hd]
    · simp [initCollector, hc, he]

theorem initCollector_state_metrics (env : Env) (dial : String → Except String Conn)
    (s : OtelState) : (initCollector env dial s).state.metrics = s.metrics := by
  cases hc : s.grpcConnection with
  | some conn => simp [initCollector, hc]
  | none =>
    by_cases he : goToLower (osGetenv env.OTEL_ENABLE) = "true"
    · by_cases hep : osGetenv env.OTEL_COLLECTOR_ENDPOINT = ""
      · simp [initCollector, hc, he, hep]
      · cases hd : dial (osGetenv env.OTEL_COLLECTOR_ENDPOINT) <;>
          simp [initCollector, hc, he, hep, hd]
    · simp [initCollector, hc, he]

/-- C5: when a channel has already been memoized (`grpcConnection` non-nil),
`initCollector` returns that identical channel handle with no error, makes
no connection attempt, and leaves the state unchanged — so at most one live
collector channel ever exists per process. -/
theorem C5_initCollector_idempotent_when_memoized
    (env : Env) (dial : String → Except String Conn) (s : OtelState)
    (conn : Conn) (h : s.grpcConnection = some conn) :
    initCollector env dial s =
      { state := s, attempts := [], result := .ok conn } := by
  unfold initCollector
  rw [h]

/-- Witness for C5 at a concrete memoized state. -/
theorem C5_initCollector_idempotent_when_memoized_witness :
    initCollector
        { OTEL_ENABLE := some "true", OTEL_COLLECTOR_ENDPOINT := some "collector:4317",
          SERVICE_VERSION := none, ENV := none }
        (fun _ => .ok 9)
        { initialState with grpcConnection := some 5 } =
      { state := { initialState with grpcConnection := some 5 },
        attempts := [], result := .ok 5 } :=
  C5_initCollector_idempotent_when_memoized _ _ _ 5 rfl

/-- C6: with no memoized channel and the enablement flag permitting
connection, `initCollector` fails with `missingEndpoint` exactly when the
endpoint is empty; otherwise it attempts to open a channel to the endpoint,
failing with `connectionFailed` wrapping the cause when the dial fails, and
memoizing and returning the channel when the dial succeeds. -/
theorem C6_initCollector_fresh_enabled_behaviour
    (env : Env) (dial : String → Except String Conn) (s : OtelState)
    (h0 : s.grpcConnection = none)
    (h1 : goToLower (osGetenv env.OTEL_ENABLE) = "true") :
    (osGetenv env.OTEL_COLLECTOR_ENDPOINT = "" →
      initCollector env dial s =
        { state := s, attempts := [], result := .error .missingEndpoint }) ∧
    (osGetenv env.OTEL_COLLECTOR_ENDPOINT ≠ "" →
      (∀ e, dial (osGetenv env.OTEL_COLLECTOR_ENDPOINT) = .error e →
        initCollector env dial s =
          { state := s, attempts := [osGetenv env.OTEL_COLLECTOR_ENDPOINT],
            result := .error (.connectionFailed e) }) ∧
      (∀ conn, dial (osGetenv env.OTEL_COLLECTOR_ENDPOINT) = .ok conn →
        initCollector env dial s =
          { state := { s with grpcConnection := some conn },
            attempts := [osGetenv env.OTEL_COLLECTOR_ENDPOINT],
            result := .ok conn })) := by
  unfold initCollector
  rw [h0]
  simp only [h1]
  refine ⟨fun he => ?_, fun he => ⟨fun e hd => ?_, fun conn hd => ?_⟩⟩
  · simp [he]
  · simp [he, hd]
  · simp [he, hd]

/-- Witness for C6 at concrete inputs: empty-endpoint case under one
environment, failing dial and succeeding dial under another. -/
theorem C6_initCollector_fresh_enabled_behaviour_witness :
    ((osGetenv (some "c:4317") = "" →
      initCollector
          { OTEL_ENABLE := some "true", OTEL_COLLECTOR_ENDPOINT := some "c:4317",
            SERVICE_VERSION := none, ENV := none }
          (fun _ => .ok 3) initialState =
        { state := initialState, attempts := [], result := .error .missingEndpoint }) ∧
    (osGetenv (some "c:4317") ≠ "" →
      (∀ e, (fun _ => Except.ok 3 : String → Except String Conn) "c:4317" = .error e →
        initCollector
            { OTEL_ENABLE := some "true", OTEL_COLLECTOR_ENDPOINT := some "c:4317",
              SERVICE_VERSION := none, ENV := none }
            (fun _ => .ok 3) initialState =
          { state := initialState, attempts := ["c:4317"],
            result := .error (.connectionFailed e) }) ∧
      (∀ conn, (fun _ => Except.ok 3 : String → Except String Conn) "c:4317" = .ok conn →
        initCollector
            { OTEL_ENABLE := some "true", OTEL_COLLECTOR_ENDPOINT := some "c:4317",
              SERVICE_VERSION := none, ENV := none }
            (fun _ => .ok 3) initialState =
          { state := { initialState with grpcConnection := some conn },
            attempts := ["c:4317"], result := .ok conn }))) :=
  C6_initCollector_fresh_enabled_behaviour
    { OTEL_ENABLE := some "true", OTEL_COLLECTOR_ENDPOINT := some "c:4317",
      SERVICE_VERSION := none, ENV := none }
    (fun _ => .ok 3) initialState rfl (by decide)

/-- C7: any `StartSpan` call made while the package tracer is unset or no
collector channel was ever established returns a no-op span together with a
context derived from the given one, and ending that span emits nothing to
an exporter. -/
theorem C7_StartSpan_noop_before_setup
    (s : OtelState) (ctx : Context) (callerFn : String) (callerLine : Nat)
    (h : s.tracer = none ∨ s.grpcConnection = none) :
    StartSpan s ctx callerFn callerLine = (Span.noop :: ctx, Span.noop) ∧
    Span.endEmitsExport (StartSpan s ctx callerFn callerLine).2 = false := by
  have hmain : StartSpan s ctx callerFn callerLine = (Span.noop :: ctx, Span.noop) := by
    unfold StartSpan
    rcases h with h | h
    · rw [h]
    · rw [h]
      cases s.tracer <;> rfl
  refine ⟨hmain, ?_⟩
  rw [hmain]
  rfl

/-- Witness for C7 at the initial state. -/
theorem C7_StartSpan_noop_before_setup_witness :
    StartSpan initialState [] "main.handler" 42 = ([Span.noop], Span.noop) ∧
    Span.endEmitsExport (StartSpan initialState [] "main.handler" 42).2 = false :=
  C7_StartSpan_noop_before_setup initialState [] "main.handler" 42 (Or.inl rfl)

/-- C1 counterexample: `OTEL_ENABLE="TRUE"` is not the exact case-sensitive
string `"true"`, yet with no memoized channel `initCollector` attempts (and
here completes) a network connection, and `NewTraceProvider` then installs a
real SDK tracer rather than a no-op emitter — refuting the claim that every
such flag value yields no-op mode with no connection attempt. -/
theorem C1_cx_uppercase_flag_still_connects :
    (initCollector
        { OTEL_ENABLE := some "TRUE", OTEL_COLLECTOR_ENDPOINT := some "collector:4317",
          SERVICE_VERSION := none, ENV := none }
        (fun _ => .ok 7) initialState).attempts = ["collector:4317"] ∧
    (initCollector
        { OTEL_ENABLE := some "TRUE", OTEL_COLLECTOR_ENDPOINT := some "collector:4317",
          SERVICE_VERSION := none, ENV := none }
        (fun _ => .ok 7) initialState).result = .ok 7 ∧
    (NewTraceProvider
        { OTEL_ENABLE := some "TRUE", OTEL_COLLECTOR_ENDPOINT := some "collector:4317",
          SERVICE_VERSION := none, ENV := none }
        (fun _ => .ok 7) (.ok ()) (.ok ()) "svc" initialState).state.tracer =
      some (.sdk "svc" 7 { serviceName := "svc", serviceVersion := "",
                           deploymentEnvironment := "", withHost := true }) := by
  refine ⟨rfl, rfl, ?_⟩
  rfl

/-- C1 (amended): the flag comparison is case-insensitive.  For every value
of `OTEL_ENABLE` whose lowercasing is not `"true"`, with no channel already
memoized, `initCollector` fails with the disabled error and attempts no
network connection, `NewTraceProvider` installs a no-op emitter and returns
a nil handle with a no-op shutdown, and `NewMeterProvider` returns a no-op
shutdown leaving the state unchanged — all with no connection attempt. -/
theorem C1_noop_when_flag_lowercase_not_true
    (env : Env) (dial : String → Except String Conn) (s : OtelState)
    (exp res cnt hst : Except String Unit) (service : String)
    (h0 : s.grpcConnection = none)
    (h1 : goToLower (osGetenv env.OTEL_ENABLE) ≠ "true") :
    initCollector env dial s =
      { state := s, attempts := [], result := .error .disabled } ∧
    NewTraceProvider env dial exp res service s =
      { state := { s with tracer := some (.noop "noop") }, attempts := [],
        provider := none, cleanup := .noopClean } ∧
    NewMeterProvider env dial exp res cnt hst service s =
      { state := s, attempts := [], cleanup := .noopClean } := by
  have hi : initCollector env dial s =
      { state := s, attempts := [], result := .error .disabled } := by
    simp [initCollector, h0, h1]
  refine ⟨hi, ?_, ?_⟩
  · unfold NewTraceProvider
    rw [hi]
  · unfold NewMeterProvider
    rw [hi]

/-- Witness for C1 (amended) at `OTEL_ENABLE="false"`. -/
theorem C1_noop_when_flag_lowercase_not_true_witness :
    initCollector
        { OTEL_ENABLE := some "false", OTEL_COLLECTOR_ENDPOINT := some "collector:4317",
          SERVICE_VERSION := none, ENV := none }
        (fun _ => .ok 7) initialState =
      { state := initialState, attempts := [], result := .error .disabled } ∧
    NewTraceProvider
        { OTEL_ENABLE := some "false", OTEL_COLLECTOR_ENDPOINT := some "collector:4317",
          SERVICE_VERSION := none, ENV := none }
        (fun _ => .ok 7) (.ok ()) (.ok ()) "svc" initialState =
      { state := { initialState with tracer := some (.noop "noop") }, attempts := [],
        provider := none, cleanup := .noopClean } ∧
    NewMeterProvider
        { OTEL_ENABLE := some "false", OTEL_COLLECTOR_ENDPOINT := some "collector:4317",
          SERVICE_VERSION := none, ENV := none }
        (fun _ => .ok 7) (.ok ()) (.ok ()) (.ok ()) (.ok ()) "svc" initialState =
      { state := initialState, attempts := [], cleanup := .noopClean } :=
  C1_noop_when_flag_lowercase_not_true
    { OTEL_ENABLE := some "false", OTEL_COLLECTOR_ENDPOINT := some "collector:4317",
      SERVICE_VERSION := none, ENV := none }
    (fun _ => .ok 7) initialState (.ok ()) (.ok ()) (.ok ()) (.ok ()) "svc"
    rfl (by decide)

/-- C2: evaluating the code at the failing input.  A handler that calls
`WriteHeader(404)` then `WriteHeader(200)` ends with a tracked status of
200 — the LAST write wins, because `WriteHeader` overwrites `statusCode`
unconditionally — so `MetricsMiddleware` records `status_code` 200, even
though the underlying writer committed 404 on the wire and the method's own
documentation promises that only the first status is stored.  A handler
that never writes keeps the default 200. -/
theorem C2_last_write_wins_not_first :
    (List.foldl responseWriter.WriteHeader NewResponseWriter [404, 200]).Status = 200 ∧
    (List.foldl responseWriter.WriteHeader NewResponseWriter [404, 200]).committed = some 404 ∧
    MetricsMiddleware initialState { method := "GET", path := "/login" } [404, 200] 1 =
      [ .counterAdd none 1
          [ .str "method" "GET", .str "path" "/login", .int "status_code" 200 ]
        , .histRecord none 1
          [ .str "method" "GET", .str "path" "/login", .int "status_code" 200 ] ] ∧
    (List.foldl responseWriter.WriteHeader NewResponseWriter []).Status = 200 := by
  refine ⟨rfl, rfl, ?_, rfl⟩
  rfl

/-- C3 counterexample: with the collector channel acquired but the exporter
build failing, `NewTraceProvider` returns a nil handle and no-op shutdown,
yet does NOT install a no-op span emitter: starting from the initial state
the process-wide tracer remains unset (`none`), unlike the
channel-acquisition-failure path which sets it to the no-op tracer. -/
theorem C3_cx_exporter_failure_installs_no_tracer :
    (NewTraceProvider
        { OTEL_ENABLE := some "true", OTEL_COLLECTOR_ENDPOINT := some "collector:4317",
          SERVICE_VERSION := none, ENV := none }
        (fun _ => .ok 1) (.error "exporter build failed") (.ok ()) "svc"
        initialState).state.tracer = none ∧
    (NewTraceProvider
        { OTEL_ENABLE := some "true", OTEL_COLLECTOR_ENDPOINT := some "collector:4317",
          SERVICE_VERSION := none, ENV := none }
        (fun _ => .ok 1) (.error "exporter build failed") (.ok ()) "svc"
        initialState).state.tracer ≠ some (.noop "noop") := by
  have h1 : (NewTraceProvider
      { OTEL_ENABLE := some "true", OTEL_COLLECTOR_ENDPOINT := some "collector:4317",
        SERVICE_VERSION := none, ENV := none }
      (fun _ => .ok 1) (.error "exporter build failed") (.ok ()) "svc"
      initialState).state.tracer = none := rfl
  refine ⟨h1, ?_⟩
  rw [h1]
  exact fun h => Option.noConfusion h

/-- C3 (amended): a failure at the exporter-build or resource-build step
returns a nil provider handle and a no-op shutdown function, like a
channel-acquisition failure, but unlike that case it does not install a
no-op span emitter — the process-wide tracer is left unchanged; only the
channel-acquisition failure installs the no-op tracer. -/
theorem C3_exporter_resource_failure_nil_handle_tracer_unchanged
    (env : Env) (dial : String → Except String Conn) (s : OtelState)
    (conn : Conn) (msg : String) (out : Except String Unit) (service : String)
    (h : (initCollector env dial s).result = .ok conn) :
    (NewTraceProvider env dial (.error msg) out service s).provider = none ∧
    (NewTraceProvider env dial (.error msg) out service s).cleanup = .noopClean ∧
    (NewTraceProvider env dial (.error msg) out service s).state.tracer = s.tracer ∧
    (NewTraceProvider env dial (.ok ()) (.error msg) service s).provider = none ∧
    (NewTraceProvider env dial (.ok ()) (.error msg) service s).cleanup = .noopClean ∧
    (NewTraceProvider env dial (.ok ()) (.error msg) service s).state.tracer = s.tracer := by
  simp only [NewTraceProvider]
  rw [h]
  exact ⟨rfl, rfl, initCollector_state_tracer env dial s, rfl, rfl,
    initCollector_state_tracer env dial s⟩

/-- Witness for C3 (amended) at a concrete enabled environment. -/
theorem C3_exporter_resource_failure_nil_handle_tracer_unchanged_witness :
    (NewTraceProvider
        { OTEL_ENABLE := some "true", OTEL_COLLECTOR_ENDPOINT := some "collector:4317",
          SERVICE_VERSION := none, ENV := none }
        (fun _ => .ok 1) (.error "boom") (.ok ()) "svc" initialState).provider = none ∧
    (NewTraceProvider
        { OTEL_ENABLE := some "true", OTEL_COLLECTOR_ENDPOINT := some "collector:4317",
          SERVICE_VERSION := none, ENV := none }
        (fun _ => .ok 1) (.error "boom") (.ok ()) "svc" initialState).cleanup = .noopClean ∧
    (NewTraceProvider
        { OTEL_ENABLE := some "true", OTEL_COLLECTOR_ENDPOINT := some "collector:4317",
          SERVICE_VERSION := none, ENV := none }
        (fun _ => .ok 1) (.error "boom") (.ok ()) "svc" initialState).state.tracer =
      initialState.tracer ∧
    (NewTraceProvider
        { OTEL_ENABLE := some "true", OTEL_COLLECTOR_ENDPOINT := some "collector:4317",
          SERVICE_VERSION := none, ENV := none }
        (fun _ => .ok 1) (.ok ()) (.error "boom") "svc" initialState).provider = none ∧
    (NewTraceProvider
        { OTEL_ENABLE := some "true", OTEL_COLLECTOR_ENDPOINT := some "collector:4317",
          SERVICE_VERSION := none, ENV := none }
        (fun _ => .ok 1) (.ok ()) (.error "boom") "svc" initialState).cleanup = .noopClean ∧
    (NewTraceProvider
        { OTEL_ENABLE := some "true", OTEL_COLLECTOR_ENDPOINT := some "collector:4317",
          SERVICE_VERSION := none, ENV := none }
        (fun _ => .ok 1) (.ok ()) (.error "boom") "svc" initialState).state.tracer =
      initialState.tracer :=
  C3_exporter_resource_failure_nil_handle_tracer_unchanged
    { OTEL_ENABLE := some "true", OTEL_COLLECTOR_ENDPOINT := some "collector:4317",
      SERVICE_VERSION := none, ENV := none }
    (fun _ => .ok 1) initialState 1 "boom" (.ok ()) "svc" rfl

/-- C4: when the shared instrument pair has never been initialized (both
fields `nil`), every invocation of `MetricsMiddleware`,
`UnaryServerMetricsInterceptor` and `StreamServerMetricsInterceptor` still
unconditionally issues its `Add` and `Record` calls against the unset
(`none`) instruments — no guard makes the recording branch safe or
unreachable in that state. -/
theorem C4_recording_reaches_unset_instruments
    (s : OtelState) (req : Request) (writes : List Int) (d d1 d2 : ℚ)
    (fm : String) (resp : Option String) (err : Option GoError)
    (hc : s.metrics.RequestCounter = none)
    (hh : s.metrics.RequestHistogram = none) :
    (∃ a1 a2, MetricsMiddleware s req writes d =
        [.counterAdd none 1 a1, .histRecord none d a2]) ∧
    (∃ a1 a2, (UnaryServerMetricsInterceptor s fm resp err d1).events =
        [.counterAdd none 1 a1, .histRecord none d1 a2]) ∧
    (∃ a1 a2, (StreamServerMetricsInterceptor s fm err d2).events =
        [.counterAdd none 1 a1, .histRecord none d2 a2]) := by
  refine
    ⟨⟨[.str "method" req.method, .str "path" req.path,
        .int "status_code" ((writes.foldl responseWriter.WriteHeader NewResponseWriter).Status)],
      [.str "method" req.method, .str "path" req.path,
        .int "status_code" ((writes.foldl responseWriter.WriteHeader NewResponseWriter).Status)], ?_⟩,
     ⟨[.str "method" fm, .int "status_code" (statusCode err)],
      [.str "method" fm, .int "status_code" (statusCode err)], ?_⟩,
     ⟨[.str "method" fm, .int "status_code" (statusCode err)],
      [.str "method" fm, .int "status_code" (statusCode err)], ?_⟩⟩ <;>
    simp [MetricsMiddleware, UnaryServerMetricsInterceptor,
      StreamServerMetricsInterceptor, hc, hh]

/-- Witness for C4 at the initial (never-initialized) state. -/
theorem C4_recording_reaches_unset_instruments_witness :
    (∃ a1 a2, MetricsMiddleware initialState { method := "GET", path := "/p" } [500] 1 =
        [.counterAdd none 1 a1, .histRecord none 1 a2]) ∧
    (∃ a1 a2, (UnaryServerMetricsInterceptor initialState "/pkg.Svc/M" none none 2).events =
        [.counterAdd none 1 a1, .histRecord none 2 a2]) ∧
    (∃ a1 a2, (StreamServerMetricsInterceptor initialState "/pkg.Svc/M" none 3).events =
        [.counterAdd none 1 a1, .histRecord none 3 a2]) :=
  C4_recording_reaches_unset_instruments initialState { method := "GET", path := "/p" }
    [500] 1 2 3 "/pkg.Svc/M" none none rfl rfl

/-- C8: for every handler outcome, both RPC interceptors record exactly one
counter increment of 1 and one histogram record, each tagged with the full
method name and a `status_code` attribute equal to the gRPC status code
extracted from the handler's returned error — where a nil error extracts to
the success code 0 and a status error to its own code — and both pass the
handler's outcome through unchanged. -/
theorem C8_interceptors_record_status_from_handler_error
    (s : OtelState) (fullMethod : String) (resp : Option String)
    (err : Option GoError) (d1 d2 : ℚ) :
    (UnaryServerMetricsInterceptor s fullMethod resp err d1).events =
      [ .counterAdd s.metrics.RequestCounter 1
          [ .str "method" fullMethod, .int "status_code" (statusCode err) ]
        , .histRecord s.metrics.RequestHistogram d1
          [ .str "method" fullMethod, .int "status_code" (statusCode err) ] ] ∧
    (UnaryServerMetricsInterceptor s fullMethod resp err d1).resp = resp ∧
    (UnaryServerMetricsInterceptor s fullMethod resp err d1).err = err ∧
    (StreamServerMetricsInterceptor s fullMethod err d2).events =
      [ .counterAdd s.metrics.RequestCounter 1
          [ .str "method" fullMethod, .int "status_code" (statusCode err) ]
        , .histRecord s.metrics.RequestHistogram d2
          [ .str "method" fullMethod, .int "status_code" (statusCode err) ] ] ∧
    (StreamServerMetricsInterceptor s fullMethod err d2).err = err ∧
    statusCode none = 0 ∧
    (∀ c m, statusCode (some (.grpcStatus c m)) = c) :=
  ⟨rfl, rfl, rfl, rfl, rfl, rfl, fun _ _ => rfl⟩

/-- C9: when every setup step succeeds, `NewMeterProvider` populates the
shared instrument pair with exactly the monotonic 64-bit counter named
`http_requests_total` and the duration histogram named
`http_request_duration_seconds` with explicit bucket boundaries
`{0.1,0.2,0.3,0.4,0.5,0.6,0.7,0.8,0.9,1.0,2.0,5.0}`; after success both
instruments are non-nil. -/
theorem C9_meter_success_creates_both_instruments
    (env : Env) (dial : String → Except String Conn) (s : OtelState)
    (conn : Conn) (service : String)
    (h : (initCollector env dial s).result = .ok conn) :
    (NewMeterProvider env dial (.ok ()) (.ok ()) (.ok ()) (.ok ())
        service s).state.metrics.RequestCounter =
      some { name := "http_requests_total"
             description := "Total number of HTTP requests" } ∧
    (NewMeterProvider env dial (.ok ()) (.ok ()) (.ok ()) (.ok ())
        service s).state.metrics.RequestHistogram =
      some { name := "http_request_duration_seconds"
             description := "HTTP request duration in seconds"
             boundaries := [0.1, 0.2, 0.3, 0.4, 0.5,
                            0.6, 0.7, 0.8, 0.9, 1.0,
                            2.0, 5.0] } ∧
    (NewMeterProvider env dial (.ok ()) (.ok ()) (.ok ()) (.ok ())
        service s).state.metrics.RequestCounter.isSome = true ∧
    (NewMeterProvider env dial (.ok ()) (.ok ()) (.ok ()) (.ok ())
        service s).state.metrics.RequestHistogram.isSome = true := by
  simp only [NewMeterProvider]
  rw [h]
  exact ⟨rfl, rfl, rfl, rfl⟩

/-- Witness for C9 with a reachable endpoint and enabled flag. -/
theorem C9_meter_success_creates_both_instruments_witness :
    (NewMeterProvider
        { OTEL_ENABLE := some "true", OTEL_COLLECTOR_ENDPOINT := some "collector:4317",
          SERVICE_VERSION := some "1.2.3", ENV := some "prod" }
        (fun _ => .ok 4) (.ok ()) (.ok ()) (.ok ()) (.ok ())
        "svc" initialState).state.metrics.RequestCounter =
      some { name := "http_requests_total"
             description := "Total number of HTTP requests" } ∧
    (NewMeterProvider
        { OTEL_ENABLE := some "true", OTEL_COLLECTOR_ENDPOINT := some "collector:4317",
          SERVICE_VERSION := some "1.2.3", ENV := some "prod" }
        (fun _ => .ok 4) (.ok ()) (.ok ()) (.ok ()) (.ok ())
        "svc" initialState).state.metrics.RequestHistogram =
      some { name := "http_request_duration_seconds"
             description := "HTTP request duration in seconds"
             boundaries := [0.1, 0.2, 0.3, 0.4, 0.5,
                            0.6, 0.7, 0.8, 0.9, 1.0,
                            2.0, 5.0] } ∧
    (NewMeterProvider
        { OTEL_ENABLE := some "true", OTEL_COLLECTOR_ENDPOINT := some "collector:4317",
          SERVICE_VERSION := some "1.2.3", ENV := some "prod" }
        (fun _ => .ok 4) (.ok ()) (.ok ()) (.ok ()) (.ok ())
        "svc" initialState).state.metrics.RequestCounter.isSome = true ∧
    (NewMeterProvider
        { OTEL_ENABLE := some "true", OTEL_COLLECTOR_ENDPOINT := some "collector:4317",
          SERVICE_VERSION := some "1.2.3", ENV := some "prod" }
        (fun _ => .ok 4) (.ok ()) (.ok ()) (.ok ()) (.ok ())
        "svc" initialState).state.metrics.RequestHistogram.isSome = true :=
  C9_meter_success_creates_both_instruments
    { OTEL_ENABLE := some "true", OTEL_COLLECTOR_ENDPOINT := some "collector:4317",
      SERVICE_VERSION := some "1.2.3", ENV := some "prod" }
    (fun _ => .ok 4) initialState 4 "svc" rfl

/-- C10: `IsEnabled` returns true iff `OTEL_ENABLE` equals exactly the
case-sensitive string `"true"` and `OTEL_COLLECTOR_ENDPOINT` is present in
the environment (even when empty).  Consequently `IsEnabled` can return
true while `initCollector` on a fresh state still fails with the
missing-endpoint error (endpoint present but empty), and can return false
(`OTEL_ENABLE="TRUE"`) while `initCollector` proceeds to attempt a
connection. -/
theorem C10_IsEnabled_iff_and_divergence_from_initCollector :
    (∀ env : Env, IsEnabled env = true ↔
      (env.OTEL_ENABLE = some "true" ∧ env.OTEL_COLLECTOR_ENDPOINT.isSome = true)) ∧
    (IsEnabled { OTEL_ENABLE := some "true", OTEL_COLLECTOR_ENDPOINT := some "",
                 SERVICE_VERSION := none, ENV := none } = true ∧
     (initCollector
         { OTEL_ENABLE := some "true", OTEL_COLLECTOR_ENDPOINT := some "",
           SERVICE_VERSION := none, ENV := none }
         (fun _ => .ok 1) initialState).result = .error .missingEndpoint ∧
     (initCollector
         { OTEL_ENABLE := some "true", OTEL_COLLECTOR_ENDPOINT := some "",
           SERVICE_VERSION := none, ENV := none }
         (fun _ => .ok 1) initialState).attempts = []) ∧
    (IsEnabled { OTEL_ENABLE := some "TRUE", OTEL_COLLECTOR_ENDPOINT := some "collector:4317",
                 SERVICE_VERSION := none, ENV := none } = false ∧
     (initCollector
         { OTEL_ENABLE := some "TRUE", OTEL_COLLECTOR_ENDPOINT := some "collector:4317",
           SERVICE_VERSION := none, ENV := none }
         (fun _ => .ok 2) initialState).attempts = ["collector:4317"] ∧
     (initCollector
         { OTEL_ENABLE := some "TRUE", OTEL_COLLECTOR_ENDPOINT := some "collector:4317",
           SERVICE_VERSION := none, ENV := none }
         (fun _ => .ok 2) initialState).result = .ok 2) := by
  refine ⟨fun env => ?_, ⟨rfl, rfl, rfl⟩, ⟨rfl, rfl, rfl⟩⟩
  cases he : env.OTEL_ENABLE <;>
    simp [IsEnabled, osGetenv, he, String.ext_iff]

end Otelx
